import Mathlib

/-!
Verification of the hearthstats deck-scraper (src/hearth.py) against its
natural-language specification.

The Python program is shallowly embedded below:

* pure string normalizations become Lean functions on String;
* the SQLite tables become lists of row structures, and each INSERT is an
  explicit list operation; a plain INSERT against a PRIMARY KEY is modelled
  as an Except value that fails (as sqlite3 raises IntegrityError) when the
  key is already present;
* SQL NULL in the aggregation query is modelled as Option (none = NULL);
  SQLite division by zero yields NULL, modelled as none;
* network fetches are abstracted to an explicit fetch function passed in,
  so that the pagination and extraction logic stays verbatim.

Machine integers of the source are Pythons unbounded int, so Int and Nat
are exact models.
-/

namespace HearthStats

/-- The Card class of hearth.py: a (cardname, amount) pair inside a deck. -/
structure Card where
  cardname : String
  amount : Int
deriving DecidableEq

/-- The Deck class of hearth.py.  deckid is the HearthPwn id parsed from the
listing URL; hero, type, rating, dust, updated are the listing columns after
normalization; decklist is the list of Card values from get_deck_list. -/
structure Deck where
  deckid : Int
  hero : String
  type : String
  rating : Int
  dust : Int
  updated : Int
  decklist : List Card
deriving DecidableEq

/-- A row of the SQLite table
decks(deckid integer primary key, class text, type text, rating integer,
dust integer, updated integer).  The column named class in SQL is the field
deckClass here (class is a Lean keyword). -/
structure DeckRow where
  deckid : Int
  deckClass : String
  deckType : String
  rating : Int
  dust : Int
  updated : Int
deriving DecidableEq

/-- A row of deck_lists(deckid integer, cardname text, amount integer,
PRIMARY KEY (deckid, cardname)). -/
structure DeckListRow where
  deckid : Int
  cardname : String
  amount : Int
deriving DecidableEq

/-- A row of cards(cardname text, cardset text, hero text, rarity text,
PRIMARY KEY (cardname)).  populate_card_db stores the playerClass of the
catalog card in the hero column. -/
structure CardsRow where
  cardname : String
  cardset : String
  hero : String
  rarity : String
deriving DecidableEq

/-- A row of collection(cardname text, amount integer, PRIMARY KEY (cardname)). -/
structure CollectionRow where
  cardname : String
  amount : Int
deriving DecidableEq

/-! ## Record normalization (deck metainfo extraction, hearth.py lines 545-546)

The dust column text is normalized by
dust.text.replace(",", "").replace("k", "00").replace(".", "")
and Deck.__init__ then applies int(...).  Pythons str.replace replaces every
occurrence left to right; all three patterns used by the source are a single
character, for which str.replace is exactly a character-wise substitution,
modelled by replace_char below.  int(...) on a string of decimal digits is
modelled by parse_int (none models the ValueError raised on non-digits). -/

/-- Character-wise substitution: the semantics of Pythons str.replace for a
single-character pattern (the only shape of pattern the source uses). -/
def replace_char (pattern : Char) (replacement : List Char) : List Char → List Char
  | [] => []
  | c :: cs =>
      (if c = pattern then replacement else [c]) ++ replace_char pattern replacement cs

/-- Pythons int(...) on a nonnegative decimal-digit string.  none models the
ValueError raised when some character is not a digit (or the string is empty). -/
def parse_int (cs : List Char) : Option Nat :=
  if cs ≠ [] ∧ cs.all (·.isDigit) then
    some (cs.foldl (fun a c => a * 10 + (c.toNat - 48)) 0)
  else none

/-- The dust normalization pipeline applied to each raw dust string in
get_deck_metainfo: replace "," by "", then "k" by "00", then "." by "". -/
def normalize_dust (s : String) : List Char :=
  replace_char '.' []
    (replace_char 'k' ['0', '0']
      (replace_char ',' [] s.data))

/-- int(dust) as applied by Deck.__init__ to the normalized dust string. -/
def parse_dust (s : String) : Option Nat :=
  parse_int (normalize_dust s)

/-! ## Deck persistence (populate_deck_db, hearth.py lines 558-584)

populate_deck_db drops and recreates the decks and deck_lists tables, then
for each deck executes
  INSERT INTO decks (class, type, rating, dust, updated) VALUES (?,?,?,?,?)
— note that the deckid column is OMITTED from the column list, so SQLite
assigns it the next rowid (the tables are freshly created, so rowids are
1, 2, 3, ...); cursor.lastrowid then yields that auto-assigned rowid, and
each card of the deck is inserted as
  INSERT INTO deck_lists VALUES (last_id, cardname, amount).
deck_lists has PRIMARY KEY (deckid, cardname) and the INSERT is a plain
INSERT (not INSERT OR REPLACE), so sqlite3 raises IntegrityError when the
key is already present; that exception is modelled as Except.error, and it
propagates (there is no try/except around the loop), aborting ingestion. -/

/-- INSERT INTO deck_lists VALUES (?,?,?): appends the row, or fails when a
row with the same (deckid, cardname) primary key is already present
(sqlite3.IntegrityError). -/
def insert_deck_list (t : List DeckListRow) (r : DeckListRow) :
    Except String (List DeckListRow) :=
  if t.any (fun x => x.deckid = r.deckid ∧ x.cardname = r.cardname) then
    Except.error "IntegrityError: UNIQUE constraint failed: deck_lists.deckid, deck_lists.cardname"
  else
    Except.ok (t ++ [r])

/-- The inner loop of populate_deck_db: insert every card of one deck into
deck_lists under the deckid last_id (= cursor.lastrowid of the decks insert). -/
def insert_deck_cards (lastId : Int) :
    List DeckListRow → List Card → Except String (List DeckListRow)
  | t, [] => Except.ok t
  | t, c :: cs =>
      match insert_deck_list t ⟨lastId, c.cardname, c.amount⟩ with
      | Except.error e => Except.error e
      | Except.ok t' => insert_deck_cards lastId t' cs

/-- The outer loop of populate_deck_db over the freshly created tables.
The decks INSERT omits the deckid column, so the row receives the next
rowid, which on a fresh table with rows never deleted is (current row
count) + 1; cursor.lastrowid is exactly that value. -/
def populate_deck_db_loop :
    List DeckRow → List DeckListRow → List Deck →
    Except String (List DeckRow × List DeckListRow)
  | dt, dlt, [] => Except.ok (dt, dlt)
  | dt, dlt, d :: rest =>
      match insert_deck_cards (dt.length + 1 : Int) dlt d.decklist with
      | Except.error e => Except.error e
      | Except.ok dlt' =>
          populate_deck_db_loop
            (dt ++ [⟨(dt.length + 1 : Int), d.hero, d.type, d.rating, d.dust, d.updated⟩])
            dlt' rest

/-- populate_deck_db: DROP TABLE decks / deck_lists, CREATE them empty, then
run the insertion loops; returns the final pair (decks, deck_lists) of table
states, or the first uniqueness violation. -/
def populate_deck_db (decks : List Deck) :
    Except String (List DeckRow × List DeckListRow) :=
  populate_deck_db_loop [] [] decks

/-- No two rows of a deck_lists table state share the (deckid, cardname)
primary key. -/
def DLKeyUnique (t : List DeckListRow) : Prop :=
  t.Pairwise (fun a b => ¬(a.deckid = b.deckid ∧ a.cardname = b.cardname))

/-! ## Listing crawler pagination (get_deck_metainfo, hearth.py lines 482-555)

The network fetch and the per-page column extraction are abstracted into a
fetch function from URL to the list of deck stubs that the zipped column
extraction of that page yields; the claims below concern only how many
pages are requested, under which URLs, and how the accumulated result is
truncated.  DECKS_PER_PAGE = 25.0.

Float arithmetic of the source (pagecount * .1, count / 25.0) is modelled
as exact rational arithmetic; for the magnitudes a deck listing can reach,
IEEE double arithmetic agrees with the exact rational value, and every
concrete instance proved below is far inside that range.  int(...) applied
to a nonnegative float truncates, i.e. takes the floor. -/

/-- Lines 502-506 of get_deck_metainfo: when count is falsy the default is
count = int(pagecount * .1), where pagecount is the listing page-count
indicator read by get_pagecount. -/
def default_count (pagecount : Nat) : Nat :=
  ⌊(pagecount : ℚ) * (1 / 10)⌋₊

/-- Line 508: pagecount = math.ceil(count / DECKS_PER_PAGE). -/
def pages_to_fetch (count : Nat) : Nat :=
  ⌈(count : ℚ) / 25⌉₊

/-- Lines 519-523: the URL fetched for a page — the base listing URL for
page 1, and the base URL with &page=N appended for every later page. -/
def page_url (url : String) (pagenum : Nat) : String :=
  if pagenum = 1 then url else url ++ "&page=" ++ toString pagenum

/-- Line 513: for pagenum in range(1, int(pagecount)+1) — the ascending
list of page numbers 1, 2, ..., pages_to_fetch count. -/
def metainfo_pages (count : Nat) : List Nat :=
  List.range' 1 (pages_to_fetch count)

/-- get_deck_metainfo for a already-resolved positive count: fetch each page
in ascending order, accumulate the extracted stubs, and return the fetched
URLs together with output[:count].  The stub type is abstract: the claim
is about pagination, not about the per-page column extraction. -/
def get_deck_metainfo {α : Type} (fetch : String → List α) (url : String)
    (count : Nat) : List String × List α :=
  ((metainfo_pages count).map (page_url url),
    ((metainfo_pages count).flatMap (fun p => fetch (page_url url p))).take count)

/-! ## Deck detail extraction (get_deck_list, hearth.py lines 308-348)

get_deck_list fetches the class page and the neutral page of a deck,
concatenates the selected td.col-name elements, and for each element takes
  cardname = element.cssselect('a')[0].text.strip()
  elementtext = html.tostring(element).decode('UTF-8')
  match = re.search('&#215;\\s+(\\d+)', elementtext)
  amount = int(match.group(1)) if match else 0  (after logging an error)
and appends Card(cardname, amount) — unconditionally, match or no match.

The DOM element is abstracted to the pair (anchor text, raw markup string);
the regex is implemented directly: re.search scans left to right for the
first position where the literal &#215; is followed by one or more
whitespace characters and then one or more digits (the two character
classes are disjoint, so the greedy scan below is exactly the regex
semantics); \\s and \\d are modelled by Char.isWhitespace and Char.isDigit,
which agree with Python on the ASCII markup this scraper reads. -/

/-- One extracted td.col-name element: the text of its first anchor and its
raw serialized markup. -/
structure CardRowHtml where
  anchorText : String
  rawHtml : String
deriving DecidableEq

/-- Try to match &#215;\s+(\d+) at the head of the character list, giving
int(match.group(1)) on success. -/
def match_amount_at (cs : List Char) : Option Nat :=
  if "&#215;".data.isPrefixOf cs then
    let rest := (cs.drop 6).dropWhile (·.isWhitespace)
    let ds := rest.takeWhile (·.isDigit)
    if ((cs.drop 6).takeWhile (·.isWhitespace)) ≠ [] ∧ ds ≠ [] then
      some (ds.foldl (fun a c => a * 10 + (c.toNat - 48)) 0)
    else none
  else none

/-- re.search: the leftmost match of &#215;\s+(\d+), if any. -/
def search_amount : List Char → Option Nat
  | [] => none
  | c :: cs =>
      match match_amount_at (c :: cs) with
      | some n => some n
      | none => search_amount cs

/-- The extraction loop of get_deck_list over the concatenated class-page
and neutral-page rows: every row becomes a Card, with amount 0 when the
multiplication-glyph pattern is absent from its markup. -/
def get_deck_list (rows : List CardRowHtml) : List Card :=
  rows.map (fun r =>
    ⟨r.anchorText.trim,
      ((search_amount r.rawHtml.data).map Int.ofNat).getD 0⟩)

/-! ## Card catalog ingestion (populate_card_db, hearth.py lines 607-638)

The catalog JSON maps cardSet names to lists of card objects; a Python dict
is modelled as an association list (its keys are unique, and the loop reads
cards[cardset] for keys of the filtered dict, which returns the very list
the filter inspected, so iterating the filtered pairs directly is exact).
The code first filters out falsy (empty) card lists and the key
'Hero Skins', then for every remaining card with type != 'Hero' executes
  INSERT INTO cards VALUES (name, cardSet, playerClass or 'Neutral', rarity)
against cards(cardname PRIMARY KEY, ...): a plain INSERT, so a repeated
cardname raises IntegrityError, modelled as Except.error. -/

/-- One card object of the catalog JSON: name, cardSet, optional
playerClass, rarity, type. -/
structure CatCard where
  name : String
  cardSet : String
  playerClass : Option String
  rarity : String
  type : String
deriving DecidableEq

/-- The VALUES tuple of the cards INSERT:
(card['name'], card['cardSet'], card.get('playerClass', 'Neutral'),
card['rarity']). -/
def mk_cards_row (c : CatCard) : CardsRow :=
  ⟨c.name, c.cardSet, c.playerClass.getD "Neutral", c.rarity⟩

/-- INSERT INTO cards VALUES (?,?,?,?): fails when the cardname primary key
is already present. -/
def insert_card (t : List CardsRow) (r : CardsRow) : Except String (List CardsRow) :=
  if t.any (fun x => x.cardname = r.cardname) then
    Except.error "IntegrityError: UNIQUE constraint failed: cards.cardname"
  else Except.ok (t ++ [r])

/-- The inner loop of populate_card_db over one card set: insert every card
whose type is not Hero. -/
def insert_catalog_cards : List CardsRow → List CatCard → Except String (List CardsRow)
  | t, [] => Except.ok t
  | t, c :: cs =>
      if c.type ≠ "Hero" then
        match insert_card t (mk_cards_row c) with
        | Except.error e => Except.error e
        | Except.ok t' => insert_catalog_cards t' cs
      else insert_catalog_cards t cs

/-- The outer loop of populate_card_db over the filtered card sets. -/
def populate_card_db_loop : List CardsRow → List (String × List CatCard) → Except String (List CardsRow)
  | t, [] => Except.ok t
  | t, (_, cs) :: rest =>
      match insert_catalog_cards t cs with
      | Except.error e => Except.error e
      | Except.ok t' => populate_card_db_loop t' rest

/-- populate_card_db: drop and recreate cards, filter the catalog down to
nonempty sets other than Hero Skins (the valid_cardsets dict
comprehension), then run the insertion loops. -/
def populate_card_db (catalog : List (String × List CatCard)) : Except String (List CardsRow) :=
  populate_card_db_loop []
    (catalog.filter (fun p => p.2 ≠ [] ∧ p.1 ≠ "Hero Skins"))

/-- A concrete catalog: one valid minion, a Hero-typed card, a Hero Skins
set and an empty set. -/
def demo_catalog : List (String × List CatCard) :=
  [("Classic",
      [⟨"Ysera", "Classic", none, "Legendary", "Minion"⟩,
       ⟨"Jaina Proudmoore", "Classic", some "Mage", "Free", "Hero"⟩]),
   ("Hero Skins", [⟨"Medivh", "Hero Skins", some "Mage", "Epic", "Hero"⟩]),
   ("Debug", [])]

/-! ## Aggregation query (get_db_card_percentages, hearth.py lines 747-784)

The SQL is
  select cards.cardname, cards.hero,
         case when deck_lists.cardname is null then 0 else count(*) end,
         avg(coalesce(deck_lists.amount, 0)),
         case when deck_lists.cardname is null then 0.0
              else count(*) / (select cast(count(*) as double) from decks) * 100.0 end,
         coalesce(collection.amount, 0)
  from cards
  left join deck_lists on cards.cardname = deck_lists.cardname
  left join collection on cards.cardname = collection.cardname
  where cards.cardset in (the four fixed sets)
  group by cards.cardname
  order by Total desc

modelled clause by clause:

* the LEFT JOINs: a cards row joins each matching deck_lists row and each
  matching collection row, or a NULL row (none) when there is no match —
  left_opts and joined_group below;
* WHERE restricts to the four hard-coded sets — filtered_cards; the set
  list is baked into the query string, the Python function takes only the
  cursor;
* GROUP BY cards.cardname: one output row per distinct cardname among the
  restricted cards rows; since the joins are on that very name, the rows of
  one group are the joined rows of the member cards — row_for_name;
* count(*) counts all joined rows of the group; deck_lists.cardname, the
  bare cards.hero and the bare collection.amount are read from a group row
  (SQLite picks an arbitrary one; deck_lists.cardname is null on exactly
  the groups with no deck_lists match, where the group is the single
  null-extended row per member card, so the CASE is unambiguous);
* SQLite yields NULL for division by zero, so the percent column is an
  Option: none models NULL (reachable only with orphaned deck_lists rows);
* ORDER BY permutes the rows and is not modelled: every claim below is a
  statement about which rows occur, invariant under permutation. -/

/-- An ASCII apostrophe (written via its code point to keep the source free
of bare quote characters). -/
def apos : String := String.singleton (Char.ofNat 39)

/-- The four card sets hard-coded in the WHERE clause of the query; the SQL
literal spells the fourth as Journey to Un two-quotes Goro, an escaped
single quote. -/
def allowed_cardsets : List String :=
  ["Classic", "Whispers of the Old Gods", "Mean Streets of Gadgetzan",
   "Journey to Un" ++ apos ++ "Goro"]

/-- One output row of the aggregation query: cardname, hero, total,
avg per deck, percent (NULL possible), collected. -/
structure ResultRow where
  cardname : String
  hero : String
  total : Nat
  perDeck : ℚ
  percent : Option ℚ
  collected : Int
deriving DecidableEq

/-- The deck_lists rows matching a cardname (the first LEFT JOIN condition). -/
def dl_matches (deckLists : List DeckListRow) (n : String) : List DeckListRow :=
  deckLists.filter (fun r => r.cardname = n)

/-- The collection rows matching a cardname (the second LEFT JOIN condition). -/
def col_matches (collection : List CollectionRow) (n : String) : List CollectionRow :=
  collection.filter (fun r => r.cardname = n)

/-- The WHERE clause: cards rows whose cardset is one of the four
hard-coded sets. -/
def filtered_cards (cards : List CardsRow) : List CardsRow :=
  cards.filter (fun c => c.cardset ∈ allowed_cardsets)

/-- LEFT JOIN null extension: the matching rows, or one NULL row when there
is no match. -/
def left_opts {α : Type} (l : List α) : List (Option α) :=
  if l.isEmpty then [none] else l.map some

/-- The joined rows of one GROUP BY group: every member cards row crossed
with the null-extended deck_lists matches and collection matches. -/
def joined_group (grp : List CardsRow) (dl : List DeckListRow)
    (col : List CollectionRow) :
    List (CardsRow × Option DeckListRow × Option CollectionRow) :=
  grp.flatMap (fun c =>
    (left_opts dl).flatMap (fun d =>
      (left_opts col).map (fun o => (c, d, o))))

/-- The aggregation of one group: the output row for one distinct cardname. -/
def row_for_name (cards : List CardsRow) (decks : List DeckRow)
    (deckLists : List DeckListRow) (collection : List CollectionRow)
    (n : String) : ResultRow :=
  let grp := (filtered_cards cards).filter (fun c => c.cardname = n)
  let dl := dl_matches deckLists n
  let col := col_matches collection n
  let rows := joined_group grp dl col
  { cardname := n
    hero := ((grp.head?).map (fun c => c.hero)).getD ""
    total := if dl.isEmpty then 0 else rows.length
    perDeck :=
      (((rows.map (fun r => ((r.2.1).map (fun d => d.amount)).getD 0)).sum : Int) : ℚ)
        / (rows.length : ℚ)
    percent :=
      if dl.isEmpty then some 0
      else if decks.length = 0 then none
      else some ((rows.length : ℚ) / (decks.length : ℚ) * 100)
    collected := (((rows.head?).bind (fun r => r.2.2)).map (fun o => o.amount)).getD 0 }

/-- The GROUP BY keys: the distinct cardnames among the restricted cards
rows. -/
def result_names (cards : List CardsRow) : List String :=
  ((filtered_cards cards).map (fun c => c.cardname)).dedup

/-- get_db_card_percentages: the full query result, one row per group (the
final ORDER BY permutation is not modelled, see the section comment). -/
def get_db_card_percentages (cards : List CardsRow) (decks : List DeckRow)
    (deckLists : List DeckListRow) (collection : List CollectionRow) :
    List ResultRow :=
  (result_names cards).map (row_for_name cards decks deckLists collection)

/-! ## Theorems: the claims C1-C10 and their supporting lemmas -/

/-- C7: the dust normalization strips commas, turns k into two trailing
zeros and strips the decimal point, so that the string 1.2k parses to 1200,
900 to 900 and 2,500 to 2500. -/
theorem c7_dust_normalization :
    parse_dust "1.2k" = some 1200 ∧
    parse_dust "900" = some 900 ∧
    parse_dust "2,500" = some 2500 := by
  refine ⟨?_, ?_, ?_⟩ <;> decide

/-- C2 (code bug): a deck carrying the externally assigned HearthPwn id
12345 is NOT stored under deckid 12345: the INSERT omits the deckid column,
so the row is stored under the auto-assigned rowid 1, and the deck_lists
row references that rowid as well, not the HearthPwn id carried by the Deck
value (which the insert statement never reads). -/
theorem c2_deckid_not_persisted :
    populate_deck_db [⟨12345, "Mage", "Tempo", 10, 1200, 99, [⟨"Fireball", 2⟩]⟩]
      = Except.ok ([⟨1, "Mage", "Tempo", 10, 1200, 99⟩], [⟨1, "Fireball", 2⟩])
    ∧ (1 : Int) ≠ 12345 := by
  exact ⟨rfl, by decide⟩

/-- C4 counterexample: a deck whose pages yield the same card name twice
does not collapse to one deck_lists row with the last value winning — the
second INSERT violates the (deckid, cardname) primary key and ingestion
aborts with an error, producing no table state at all. -/
theorem c4_counterexample_duplicate_card_aborts :
    populate_deck_db [⟨7, "Mage", "Tempo", 0, 0, 0, [⟨"Coin", 1⟩, ⟨"Coin", 2⟩]⟩]
      = Except.error "IntegrityError: UNIQUE constraint failed: deck_lists.deckid, deck_lists.cardname" := by
  rfl

theorem insert_deck_list_ok {t : List DeckListRow} {r : DeckListRow}
    {t' : List DeckListRow} (h : insert_deck_list t r = Except.ok t') :
    t' = t ++ [r] ∧ ∀ x ∈ t, ¬(x.deckid = r.deckid ∧ x.cardname = r.cardname) := by
  unfold insert_deck_list at h
  split_ifs at h with hc
  injection h with h1
  subst h1
  refine ⟨rfl, ?_⟩
  intro x hx hk
  exact hc (List.any_eq_true.mpr ⟨x, hx, by simp [hk.1, hk.2]⟩)

theorem insert_deck_cards_preserves {lastId : Int} {cs : List Card}
    {t t' : List DeckListRow} (h : insert_deck_cards lastId t cs = Except.ok t')
    (hu : DLKeyUnique t) : DLKeyUnique t' := by
  induction cs generalizing t with
  | nil =>
      unfold insert_deck_cards at h
      cases h
      exact hu
  | cons c cs ih =>
      unfold insert_deck_cards at h
      cases heq : insert_deck_list t ⟨lastId, c.cardname, c.amount⟩ with
      | error e => rw [heq] at h; cases h
      | ok t1 =>
          rw [heq] at h
          obtain ⟨ht1, hfr⟩ := insert_deck_list_ok heq
          refine ih h ?_
          subst ht1
          refine List.pairwise_append.mpr ⟨hu, List.pairwise_singleton _ _, ?_⟩
          intro a ha b hb
          simp only [List.mem_singleton] at hb
          subst hb
          exact hfr a ha

theorem populate_deck_db_loop_preserves {ds : List Deck}
    {dt dt' : List DeckRow} {dlt dlt' : List DeckListRow}
    (h : populate_deck_db_loop dt dlt ds = Except.ok (dt', dlt'))
    (hu : DLKeyUnique dlt) : DLKeyUnique dlt' := by
  induction ds generalizing dt dlt with
  | nil =>
      unfold populate_deck_db_loop at h
      cases h
      exact hu
  | cons d rest ih =>
      unfold populate_deck_db_loop at h
      cases heq : insert_deck_cards (dt.length + 1 : Int) dlt d.decklist with
      | error e => rw [heq] at h; cases h
      | ok dlt1 =>
          rw [heq] at h
          exact ih h (insert_deck_cards_preserves heq hu)

/-- The decks table grows by exactly one row per ingested deck (the INSERT
into decks can never fail: the omitted deckid column is filled with a fresh
rowid). -/
theorem populate_deck_db_loop_decks_len {ds : List Deck}
    {dt dt' : List DeckRow} {dlt dlt' : List DeckListRow}
    (h : populate_deck_db_loop dt dlt ds = Except.ok (dt', dlt')) :
    dt'.length = dt.length + ds.length := by
  induction ds generalizing dt dlt with
  | nil =>
      unfold populate_deck_db_loop at h
      cases h
      simp
  | cons d rest ih =>
      unfold populate_deck_db_loop at h
      cases heq : insert_deck_cards (dt.length + 1 : Int) dlt d.decklist with
      | error e => rw [heq] at h; cases h
      | ok dlt1 =>
          rw [heq] at h
          have := ih h
          simp only [List.length_append, List.length_cons, List.length_singleton,
            List.length_nil] at this ⊢
          omega

/-- An ingestion run that leaves the decks table empty ingested no decks at
all, and hence also left deck_lists empty: both tables are dropped together
and each deck contributes its decks row before its deck_lists rows. -/
theorem populate_deck_db_empty {ds : List Deck} {dlt : List DeckListRow}
    (h : populate_deck_db ds = Except.ok ([], dlt)) : ds = [] ∧ dlt = [] := by
  have hl := populate_deck_db_loop_decks_len h
  simp only [List.length_nil] at hl
  cases ds with
  | nil =>
      unfold populate_deck_db populate_deck_db_loop at h
      cases h
      exact ⟨rfl, rfl⟩
  | cons d rest => simp at hl

/-- C4 amended: at most one deck_lists row per (deckId, cardName) pair holds
in every table state that ingestion actually produces, but not by collapsing
duplicates last-write-wins: the primary key makes the duplicate INSERT fail,
so a successful populate_deck_db run (the only way a table state is
produced) has pairwise-distinct (deckid, cardname) keys. -/
theorem c4_amended_deck_lists_key_unique (ds : List Deck)
    (dt : List DeckRow) (dlt : List DeckListRow)
    (h : populate_deck_db ds = Except.ok (dt, dlt)) :
    dlt.Pairwise (fun a b => ¬(a.deckid = b.deckid ∧ a.cardname = b.cardname)) :=
  populate_deck_db_loop_preserves h List.Pairwise.nil

/-- Witness for C4 amended at a concrete ingestion run. -/
theorem c4_amended_witness :
    ([⟨1, "Coin", 1⟩, ⟨1, "Fireball", 2⟩] : List DeckListRow).Pairwise
      (fun a b => ¬(a.deckid = b.deckid ∧ a.cardname = b.cardname)) :=
  c4_amended_deck_lists_key_unique
    [⟨7, "Mage", "Tempo", 0, 0, 0, [⟨"Coin", 1⟩, ⟨"Fireball", 2⟩]⟩]
    [⟨1, "Mage", "Tempo", 0, 0, 0⟩] [⟨1, "Coin", 1⟩, ⟨1, "Fireball", 2⟩] rfl

/-- C5 counterexample: with a page-count indicator of 10 (hence
10 * 25 = 250 available decks), the claimed default — 10 percent of the
total available decks, 25, already a whole page — differs from the computed
default count int(10 * .1) = 1: the code takes 10 percent of the PAGE
count, not of the deck count. -/
theorem c5_counterexample_default_count :
    default_count 10 = 1 ∧ 10 * 25 / 10 = 25 ∧ (1 : Nat) ≠ 25 := by
  refine ⟨?_, by norm_num, by norm_num⟩
  unfold default_count
  norm_num

/-- C5 amended: when the requested deck count is unset, the crawler reads
the listing page-count indicator and defaults the count to one tenth of the
page count, truncated to an integer (int(pagecount * .1)) — a deck count
equal to 10 percent of the number of pages, not 10 percent of the total
available decks. -/
theorem c5_amended_default_count (pagecount : Nat) :
    default_count pagecount = pagecount / 10 := by
  unfold default_count
  rw [mul_one_div]
  exact Nat.floor_div_eq_div pagecount 10

theorem pages_to_fetch_60 : pages_to_fetch 60 = 3 := by
  unfold pages_to_fetch
  rw [show ((60 : Nat) : ℚ) / 25 = 12 / 5 by norm_num]
  rw [Nat.ceil_eq_iff (by norm_num)]
  norm_num

/-- C6: for a positive requested count the crawler fetches exactly
ceil(count / 25) pages, in ascending order, page 1 under the bare listing
URL and page N under url&page=N, and the accumulated stub sequence is
sliced to exactly count entries whenever the fetched pages supply at least
count rows; in particular count = 60 fetches pages 1, 2, 3. -/
theorem c6_pagination {α : Type} (fetch : String → List α) (url : String)
    (count : Nat) (hpos : 0 < count)
    (hsupply : count ≤
      ((metainfo_pages count).flatMap (fun p => fetch (page_url url p))).length) :
    (get_deck_metainfo fetch url count).1
        = (List.range' 1 (pages_to_fetch count)).map (page_url url)
      ∧ (get_deck_metainfo fetch url count).2.length = count
      ∧ page_url url 1 = url
      ∧ (∀ p, 2 ≤ p → page_url url p = url ++ "&page=" ++ toString p)
      ∧ pages_to_fetch 60 = 3 := by
  refine ⟨rfl, ?_, rfl, ?_, ?_⟩
  · simp only [get_deck_metainfo, List.length_take]
    omega
  · intro p hp
    have : p ≠ 1 := by omega
    simp [page_url, this]
  · exact pages_to_fetch_60

/-- Witness for C6: a concrete fetch supplying 25 stubs per page, a target
count of 60: three pages are fetched and the result has exactly 60 entries. -/
theorem c6_pagination_witness :
    (get_deck_metainfo (fun _ => List.range 25) "http://hp/decks?x" 60).2.length = 60 :=
  (c6_pagination (fun _ => List.range 25) "http://hp/decks?x" 60 (by norm_num)
    (by simp only [metainfo_pages, pages_to_fetch_60]; decide)).2.1

/-- C8: a row whose markup does not contain the &#215; amount pattern still
produces a Card — with the sentinel amount 0 — and no row of the deck is
dropped: the output has exactly one Card per extracted row. -/
theorem c8_missing_amount_sentinel (rows : List CardRowHtml) (i : Nat)
    (hi : i < rows.length)
    (hnone : search_amount (rows.get ⟨i, hi⟩).rawHtml.data = none) :
    (get_deck_list rows).length = rows.length ∧
    ∀ h2 : i < (get_deck_list rows).length,
      (get_deck_list rows).get ⟨i, h2⟩
        = ⟨(rows.get ⟨i, hi⟩).anchorText.trim, 0⟩ := by
  refine ⟨by simp [get_deck_list], ?_⟩
  intro h2
  simp only [List.get_eq_getElem] at hnone
  simp only [get_deck_list, List.get_eq_getElem, List.getElem_map]
  simp [hnone]

/-- Witness for C8 at a concrete row without the amount pattern. -/
theorem c8_missing_amount_sentinel_witness :
    (get_deck_list [⟨"Azure Drake", "<td class=col-name>plain text</td>"⟩]).get
        ⟨0, by simp [get_deck_list]⟩
      = ⟨"Azure Drake".trim, 0⟩ :=
  (c8_missing_amount_sentinel
      [⟨"Azure Drake", "<td class=col-name>plain text</td>"⟩] 0
      (by decide) (by decide)).2 (by simp [get_deck_list])

theorem insert_card_ok {t : List CardsRow} {r : CardsRow} {t' : List CardsRow}
    (h : insert_card t r = Except.ok t') : t' = t ++ [r] := by
  unfold insert_card at h
  split_ifs at h
  injection h with h1
  exact h1.symm

theorem insert_catalog_cards_ok {cs : List CatCard} {t t' : List CardsRow}
    (h : insert_catalog_cards t cs = Except.ok t') :
    (∀ r ∈ t', r ∈ t ∨ ∃ c ∈ cs, c.type ≠ "Hero" ∧ r = mk_cards_row c)
    ∧ (∀ r ∈ t, r ∈ t')
    ∧ (∀ c ∈ cs, c.type ≠ "Hero" → mk_cards_row c ∈ t') := by
  induction cs generalizing t with
  | nil =>
      unfold insert_catalog_cards at h
      injection h with h1
      subst h1
      exact ⟨fun r hr => Or.inl hr, fun r hr => hr, by simp⟩
  | cons c cs ih =>
      unfold insert_catalog_cards at h
      split_ifs at h with htype
      · cases heq : insert_card t (mk_cards_row c) with
        | error e => rw [heq] at h; cases h
        | ok t1 =>
            rw [heq] at h
            have ht1 := insert_card_ok heq
            subst ht1
            obtain ⟨h1, h2, h3⟩ := ih h
            refine ⟨?_, ?_, ?_⟩
            · intro r hr
              rcases h1 r hr with hin | ⟨c', hc', hty, hre⟩
              · rcases List.mem_append.mp hin with hin | hin
                · exact Or.inl hin
                · refine Or.inr ⟨c, List.mem_cons_self c cs, htype, ?_⟩
                  simpa using hin
              · exact Or.inr ⟨c', List.mem_cons_of_mem c hc', hty, hre⟩
            · intro r hr
              exact h2 r (List.mem_append_left _ hr)
            · intro c' hc' hty
              rcases List.mem_cons.mp hc' with rfl | hmem
              · exact h2 _ (List.mem_append_right _ (List.mem_singleton_self _))
              · exact h3 c' hmem hty
      · obtain ⟨h1, h2, h3⟩ := ih h
        push_neg at htype
        refine ⟨?_, h2, ?_⟩
        · intro r hr
          rcases h1 r hr with hin | ⟨c', hc', hty, hre⟩
          · exact Or.inl hin
          · exact Or.inr ⟨c', List.mem_cons_of_mem c hc', hty, hre⟩
        · intro c' hc' hty
          rcases List.mem_cons.mp hc' with rfl | hmem
          · exact absurd htype hty
          · exact h3 c' hmem hty

theorem populate_card_db_loop_ok {sets : List (String × List CatCard)}
    {t t' : List CardsRow} (h : populate_card_db_loop t sets = Except.ok t') :
    (∀ r ∈ t', r ∈ t ∨ ∃ k cs, (k, cs) ∈ sets ∧ ∃ c ∈ cs, c.type ≠ "Hero" ∧ r = mk_cards_row c)
    ∧ (∀ r ∈ t, r ∈ t')
    ∧ (∀ k cs, (k, cs) ∈ sets → ∀ c ∈ cs, c.type ≠ "Hero" → mk_cards_row c ∈ t') := by
  induction sets generalizing t with
  | nil =>
      unfold populate_card_db_loop at h
      injection h with h1
      subst h1
      exact ⟨fun r hr => Or.inl hr, fun r hr => hr, by simp⟩
  | cons p rest ih =>
      unfold populate_card_db_loop at h
      cases heq : insert_catalog_cards t p.2 with
      | error e =>
          obtain ⟨k, cs⟩ := p
          rw [heq] at h
          cases h
      | ok t1 =>
          obtain ⟨k, cs⟩ := p
          rw [heq] at h
          obtain ⟨g1, g2, g3⟩ := insert_catalog_cards_ok heq
          obtain ⟨h1, h2, h3⟩ := ih h
          refine ⟨?_, ?_, ?_⟩
          · intro r hr
            rcases h1 r hr with hin | ⟨k', cs', hks', hex⟩
            · rcases g1 r hin with hin2 | ⟨c, hc, hty, hre⟩
              · exact Or.inl hin2
              · exact Or.inr ⟨k, cs, List.mem_cons_self _ _, c, hc, hty, hre⟩
            · exact Or.inr ⟨k', cs', List.mem_cons_of_mem _ hks', hex⟩
          · intro r hr
            exact h2 r (g2 r hr)
          · intro k' cs' hmem c hc hty
            rcases List.mem_cons.mp hmem with heq2 | hmem2
            · injection heq2 with e1 e2
              subst e2
              exact h2 _ (g3 c hc hty)
            · exact h3 k' cs' hmem2 c hc hty

/-- C9: after catalog ingestion, every row of the cards table arises from a
card with type other than Hero in a catalog set other than Hero Skins — so
no Hero card and no Hero Skins card is ever inserted — and conversely every
card with type other than Hero in a nonempty set other than Hero Skins is
inserted, its playerClass defaulting to Neutral when absent (mk_cards_row). -/
theorem c9_hero_filter (catalog : List (String × List CatCard))
    (rows : List CardsRow) (h : populate_card_db catalog = Except.ok rows) :
    (∀ r ∈ rows, ∃ k cs, (k, cs) ∈ catalog ∧ k ≠ "Hero Skins" ∧
        ∃ c ∈ cs, c.type ≠ "Hero" ∧ r = mk_cards_row c)
    ∧ ∀ k cs, (k, cs) ∈ catalog → cs ≠ [] → k ≠ "Hero Skins" →
        ∀ c ∈ cs, c.type ≠ "Hero" → mk_cards_row c ∈ rows := by
  unfold populate_card_db at h
  obtain ⟨h1, _, h3⟩ := populate_card_db_loop_ok h
  constructor
  · intro r hr
    rcases h1 r hr with hin | ⟨k, cs, hks, hex⟩
    · cases hin
    · have := List.mem_filter.mp hks
      refine ⟨k, cs, this.1, ?_, hex⟩
      have := of_decide_eq_true this.2
      exact this.2
  · intro k cs hmem hne hk c hc hty
    refine h3 k cs ?_ c hc hty
    refine List.mem_filter.mpr ⟨hmem, ?_⟩
    exact decide_eq_true (by exact ⟨hne, hk⟩)

/-- Witness for C9: ingesting demo_catalog succeeds and the non-Hero card
is present with playerClass defaulted to Neutral. -/
theorem c9_hero_filter_witness :
    (⟨"Ysera", "Classic", "Neutral", "Legendary"⟩ : CardsRow)
      ∈ [(⟨"Ysera", "Classic", "Neutral", "Legendary"⟩ : CardsRow)] :=
  (c9_hero_filter demo_catalog [⟨"Ysera", "Classic", "Neutral", "Legendary"⟩]
      rfl).2
    "Classic"
    [⟨"Ysera", "Classic", none, "Legendary", "Minion"⟩,
     ⟨"Jaina Proudmoore", "Classic", some "Mage", "Free", "Hero"⟩]
    (by simp [demo_catalog]) (by simp) (by simp)
    ⟨"Ysera", "Classic", none, "Legendary", "Minion"⟩ (by simp) (by simp)

theorem head_bind_none {β γ : Type} (l : List β) (f : β → Option γ)
    (hf : ∀ x ∈ l, f x = none) : l.head?.bind f = none := by
  cases l with
  | nil => rfl
  | cons a as => simpa using hf a (by simp)

theorem joined_group_col_empty {grp : List CardsRow} {dl : List DeckListRow}
    {r : CardsRow × Option DeckListRow × Option CollectionRow}
    (hr : r ∈ joined_group grp dl []) : r.2.2 = none := by
  simp only [joined_group, List.mem_flatMap, List.mem_map] at hr
  obtain ⟨c, _, d, _, o, ho, rfl⟩ := hr
  have ho2 : o = none := by simpa [left_opts] using ho
  subst ho2
  rfl

/-- A group whose cardname has no deck_lists match reports total 0 and
percent 0.0; with no collection match either, collected is 0 as well. -/
theorem row_for_name_no_match (cards : List CardsRow) (decks : List DeckRow)
    (deckLists : List DeckListRow) (collection : List CollectionRow)
    (n : String) (hdl : dl_matches deckLists n = []) :
    (row_for_name cards decks deckLists collection n).total = 0
    ∧ (row_for_name cards decks deckLists collection n).percent = some 0
    ∧ (col_matches collection n = [] →
        (row_for_name cards decks deckLists collection n).collected = 0) := by
  refine ⟨?_, ?_, ?_⟩
  · simp [row_for_name, hdl]
  · simp [row_for_name, hdl]
  · intro hcol
    simp only [row_for_name, hdl, hcol]
    rw [head_bind_none _ _ (fun x hx => joined_group_col_empty hx)]
    rfl

/-- Every card of the restricted sets owns a group, hence a result row whose
cardname is its own. -/
theorem mem_result_of_mem_filtered {cards : List CardsRow} {c : CardsRow}
    (hc : c ∈ cards) (hset : c.cardset ∈ allowed_cardsets)
    (decks : List DeckRow) (deckLists : List DeckListRow)
    (collection : List CollectionRow) :
    row_for_name cards decks deckLists collection c.cardname
      ∈ get_db_card_percentages cards decks deckLists collection := by
  refine List.mem_map.mpr ⟨c.cardname, ?_, rfl⟩
  refine List.mem_dedup.mpr (List.mem_map.mpr ⟨c, ?_, rfl⟩)
  exact List.mem_filter.mpr ⟨hc, decide_eq_true hset⟩

/-- C1: a catalog card of one of the restricted sets that occurs in no
deck_lists row still yields a result row (LEFT JOIN, not INNER JOIN), and
that row carries total 0, percent 0.0, and collected 0 when the card is
also absent from the collection table. -/
theorem c1_left_join_zero_statistics (cards : List CardsRow)
    (decks : List DeckRow) (deckLists : List DeckListRow)
    (collection : List CollectionRow) (c : CardsRow) (hc : c ∈ cards)
    (hset : c.cardset ∈ allowed_cardsets)
    (hdl : dl_matches deckLists c.cardname = [])
    (hcol : col_matches collection c.cardname = []) :
    ∃ row ∈ get_db_card_percentages cards decks deckLists collection,
      row.cardname = c.cardname ∧ row.total = 0 ∧ row.percent = some 0
        ∧ row.collected = 0 := by
  obtain ⟨h1, h2, h3⟩ :=
    row_for_name_no_match cards decks deckLists collection c.cardname hdl
  exact ⟨row_for_name cards decks deckLists collection c.cardname,
    mem_result_of_mem_filtered hc hset decks deckLists collection,
    rfl, h1, h2, h3 hcol⟩

/-- Witness for C1: one Classic card, no decks, empty deck_lists and
collection. -/
theorem c1_left_join_zero_statistics_witness :
    ∃ row ∈ get_db_card_percentages
        [⟨"Doomsayer", "Classic", "Neutral", "Epic"⟩] [] [] [],
      row.cardname = "Doomsayer" ∧ row.total = 0 ∧ row.percent = some 0
        ∧ row.collected = 0 :=
  c1_left_join_zero_statistics
    [⟨"Doomsayer", "Classic", "Neutral", "Epic"⟩] [] [] []
    ⟨"Doomsayer", "Classic", "Neutral", "Epic"⟩
    (by simp) (by simp [allowed_cardsets]) rfl rfl

/-- C3: in a corpus actually produced by deck ingestion, if the decks table
is empty then so is deck_lists (both are rebuilt together), every card of
the restricted sets still yields a result row, and every usage percentage
evaluates to 0.0 — none is NULL (division by zero), so percent = some 0
also asserts that no division error value arises. -/
theorem c3_zero_decks_zero_percent (ds : List Deck) (dlt : List DeckListRow)
    (h : populate_deck_db ds = Except.ok ([], dlt)) (cards : List CardsRow)
    (collection : List CollectionRow) :
    (∀ c ∈ cards, c.cardset ∈ allowed_cardsets →
        ∃ row ∈ get_db_card_percentages cards [] dlt collection,
          row.cardname = c.cardname)
    ∧ ∀ row ∈ get_db_card_percentages cards [] dlt collection,
        row.percent = some 0 := by
  obtain ⟨-, hdlt⟩ := populate_deck_db_empty h
  subst hdlt
  constructor
  · intro c hc hset
    exact ⟨row_for_name cards [] [] collection c.cardname,
      mem_result_of_mem_filtered hc hset [] [] collection, rfl⟩
  · intro row hrow
    obtain ⟨n, -, rfl⟩ := List.mem_map.mp hrow
    exact (row_for_name_no_match cards [] [] collection n rfl).2.1

/-- Witness for C3: the empty ingestion run and a one-card catalog. -/
theorem c3_zero_decks_zero_percent_witness :
    (row_for_name [⟨"Doomsayer", "Classic", "Neutral", "Epic"⟩] [] [] []
        "Doomsayer").percent = some 0 :=
  (c3_zero_decks_zero_percent [] [] rfl
      [⟨"Doomsayer", "Classic", "Neutral", "Epic"⟩] []).2
    (row_for_name [⟨"Doomsayer", "Classic", "Neutral", "Epic"⟩] [] [] []
      "Doomsayer")
    (mem_result_of_mem_filtered (c := ⟨"Doomsayer", "Classic", "Neutral", "Epic"⟩)
      (by simp) (by simp [allowed_cardsets]) [] [] [])

theorem nodup_names_inj {l : List CardsRow}
    (h : (l.map (fun x => x.cardname)).Nodup) {a b : CardsRow} (ha : a ∈ l)
    (hb : b ∈ l) (heq : a.cardname = b.cardname) : a = b :=
  List.inj_on_of_nodup_map h ha hb heq

/-- C10: the set restriction is baked into the query (allowed_cardsets is a
constant, not a parameter of get_db_card_percentages): every result row
names a catalog card of one of the four hard-coded sets, and a catalog card
outside them never appears in the report, whatever deck_lists and
collection contain. -/
theorem c10_fixed_set_restriction (cards : List CardsRow)
    (decks : List DeckRow) (deckLists : List DeckListRow)
    (collection : List CollectionRow) :
    (∀ row ∈ get_db_card_percentages cards decks deckLists collection,
        ∃ c ∈ cards, c.cardname = row.cardname ∧ c.cardset ∈ allowed_cardsets)
    ∧ (∀ c ∈ cards, (cards.map (fun x => x.cardname)).Nodup →
        c.cardset ∉ allowed_cardsets →
        ∀ row ∈ get_db_card_percentages cards decks deckLists collection,
          row.cardname ≠ c.cardname)
    ∧ allowed_cardsets = ["Classic", "Whispers of the Old Gods",
        "Mean Streets of Gadgetzan", "Journey to Un" ++ apos ++ "Goro"] := by
  have key : ∀ row ∈ get_db_card_percentages cards decks deckLists collection,
      ∃ c ∈ cards, c.cardname = row.cardname ∧ c.cardset ∈ allowed_cardsets := by
    intro row hrow
    obtain ⟨n, hn, rfl⟩ := List.mem_map.mp hrow
    obtain ⟨c, hcf, hcn⟩ := List.mem_map.mp (List.mem_dedup.mp hn)
    obtain ⟨hcc, hcs⟩ := List.mem_filter.mp hcf
    exact ⟨c, hcc, hcn, of_decide_eq_true hcs⟩
  refine ⟨key, ?_, rfl⟩
  intro c hc hnodup hout row hrow hname
  obtain ⟨c', hc', hname', hset'⟩ := key row hrow
  rw [hname] at hname'
  exact hout (nodup_names_inj hnodup hc' hc hname' ▸ hset')

/-- Witness for C10: with one Classic card and one card of an excluded set,
the only result row is the Classic card, not the excluded one. -/
theorem c10_fixed_set_restriction_witness :
    (row_for_name
        [⟨"Doomsayer", "Classic", "Neutral", "Epic"⟩,
         ⟨"Barnes", "One Night in Karazhan", "Neutral", "Legendary"⟩]
        [] [] [] "Doomsayer").cardname ≠ "Barnes" :=
  (c10_fixed_set_restriction
      [⟨"Doomsayer", "Classic", "Neutral", "Epic"⟩,
       ⟨"Barnes", "One Night in Karazhan", "Neutral", "Legendary"⟩]
      [] [] []).2.1
    ⟨"Barnes", "One Night in Karazhan", "Neutral", "Legendary"⟩
    (by simp) (by simp) (by decide)
    (row_for_name
      [⟨"Doomsayer", "Classic", "Neutral", "Epic"⟩,
       ⟨"Barnes", "One Night in Karazhan", "Neutral", "Legendary"⟩]
      [] [] [] "Doomsayer")
    (mem_result_of_mem_filtered (c := ⟨"Doomsayer", "Classic", "Neutral", "Epic"⟩)
      (by simp) (by simp [allowed_cardsets]) [] [] [])

end HearthStats
